import Mathlib

/-!
Verification of the per-guild feature-flag store, the control-panel session,
the ban gate, and the startup token acquisition of `bot.py`.

The JSON config object is embedded as an insertion-ordered association list
`List (String × Bool)`; the persisted file as a `FileState` (absent, present
but unreadable/unparsable, or present with parsed content); callbacks as
functions from the session state and the acting user id to the new state
and a response; and the ban command as a function from its resolved inputs
(flags, actor, bot member, target, and the outcomes of the two external
calls) to the sequence of observable events plus its boolean return value.
-/

/-- State of the per-guild persisted file `configs/config_<guild_id>.json`. -/
inductive FileState
  | absent
  | corrupt
  | stored (data : List (String × Bool))
  deriving DecidableEq

/-- The `default_config` dict of `BotConfig.__init__`, in source order. -/
def default_config : List (String × Bool) :=
  [("ban_function", true), ("welcome_messages", true), ("auto_moderation", false),
   ("logs", true), ("dm_notifications", true), ("anti_spam", false), ("auto_role", false)]

/-- Python dict assignment `d[k] = b` for an existing key of a dict embedded
as an assoc list: replace the value at the first occurrence of the key,
keeping order and all other entries. -/
def setValue : List (String × Bool) → String → Bool → List (String × Bool)
  | [], _, _ => []
  | (k, v) :: rest, name, b =>
      if name == k then (k, b) :: rest else (k, v) :: setValue rest name b

/-- One iteration of the backfill loop in `load_config`: a default pair is
added (dict insertion appends at the end) only when its key is absent. -/
def mergeStep (c : List (String × Bool)) (kv : String × Bool) : List (String × Bool) :=
  if (c.lookup kv.1).isSome then c else c ++ [kv]

/-- The backfill loop of `load_config` over `default_config.items()`. -/
def mergeDefaults (stored : List (String × Bool)) : List (String × Bool) :=
  default_config.foldl mergeStep stored

/-- In-memory `BotConfig` object of one guild together with its file. -/
structure BotConfig where
  guild_id : Nat
  config : List (String × Bool)
  file : FileState
  deriving DecidableEq

/-- Function `save_config`: serialize the current in-memory mapping to the file. -/
def save_config (s : BotConfig) : BotConfig :=
  { s with file := FileState.stored s.config }

/-- Function `load_config`: when the file is readable, hydrate from it, backfill the
missing default keys and save; when the file is absent, fall back to the
defaults and save; when reading or parsing raises, log the error and fall
back to the defaults in memory only — the `except` branch performs no save.
The boolean records whether the error branch logged a failure. -/
def load_config (s : BotConfig) : BotConfig × Bool :=
  match s.file with
  | FileState.stored data => (save_config { s with config := mergeDefaults data }, false)
  | FileState.absent => (save_config { s with config := default_config }, false)
  | FileState.corrupt => ({ s with config := default_config }, true)

/-- Function `toggle_function`: flip a recognized key, save, and return the new value;
return the `None` sentinel and touch nothing for an unrecognized key. -/
def toggle_function (s : BotConfig) (name : String) : BotConfig × Option Bool :=
  match s.config.lookup name with
  | some b => (save_config { s with config := setValue s.config name (!b) }, some (!b))
  | none => (s, none)

/-- Function `is_enabled`: `self.config.get(function_name, False)`. -/
def is_enabled (s : BotConfig) (name : String) : Bool :=
  (s.config.lookup name).getD false

/-- Flag-store states reachable through the public lifecycle: the result of
any load (hydration, panel refresh) and any toggle applied to a reachable
state. -/
inductive ReachableState : BotConfig → Prop
  | load (s : BotConfig) : ReachableState (load_config s).1
  | toggle (s : BotConfig) (n : String) (h : ReachableState s) :
      ReachableState (toggle_function s n).1

/-- Responses a panel interaction can produce. -/
inductive PanelResponse
  | denyNotOwner
  | toggled (name : String) (newState : Option Bool)
  | detailedStatus
  | refreshed
  | closed
  deriving DecidableEq

/-- Session state of `ControlPanelView`: the bound `BotConfig`, the owning
user id, whether `stop` was called, and whether the items were cleared. -/
structure ControlPanelView where
  bot_config : BotConfig
  user_id : Nat
  stopped : Bool
  cleared : Bool
  deriving DecidableEq

/-- The callback produced by `create_toggle_callback` for one feature button:
deny any actor other than the owner, otherwise toggle and re-render. -/
def create_toggle_callback (name : String) (v : ControlPanelView) (actor_id : Nat) :
    ControlPanelView × PanelResponse :=
  if actor_id != v.user_id then (v, PanelResponse.denyNotOwner)
  else
    ({ v with bot_config := (toggle_function v.bot_config name).1 },
      PanelResponse.toggled name (toggle_function v.bot_config name).2)

/-- Function `show_detailed_status`: deny non-owners; for the owner, send the status
embed without changing any state. -/
def show_detailed_status (v : ControlPanelView) (actor_id : Nat) :
    ControlPanelView × PanelResponse :=
  if actor_id != v.user_id then (v, PanelResponse.denyNotOwner)
  else (v, PanelResponse.detailedStatus)

/-- Function `refresh_panel`: deny non-owners; for the owner, reload the config from
the file and re-render. -/
def refresh_panel (v : ControlPanelView) (actor_id : Nat) :
    ControlPanelView × PanelResponse :=
  if actor_id != v.user_id then (v, PanelResponse.denyNotOwner)
  else ({ v with bot_config := (load_config v.bot_config).1 }, PanelResponse.refreshed)

/-- Function `close_panel`: deny non-owners; for the owner, replace the message view
and stop the session. -/
def close_panel (v : ControlPanelView) (actor_id : Nat) :
    ControlPanelView × PanelResponse :=
  if actor_id != v.user_id then (v, PanelResponse.denyNotOwner)
  else ({ v with stopped := true }, PanelResponse.closed)

/-- Outbound message operations a panel handler could perform. -/
inductive RenderAction
  | message_edit
  | message_send
  deriving DecidableEq

/-- The `timeout=300` argument of `ControlPanelView.__init__`. -/
def timeout_seconds : Nat := 300

/-- Function `on_timeout`: the source builds the expiry embed inside a try block but,
since the panel message object is never stored (the source comment itself
notes the message object would be needed for this to work), performs no edit
or send of any message; it only clears the buttons. -/
def on_timeout (v : ControlPanelView) : ControlPanelView × List RenderAction :=
  ({ v with cleared := true }, [])

/-- The parts of a `discord.Member` the ban gate reads: the id, the position
of the top role in the role hierarchy of the guild, and the `ban_members`
permission bit. -/
structure Member where
  id : Nat
  top_role : Nat
  ban_members : Bool
  deriving DecidableEq

/-- Outcome of one external call (`target_user.send` or `target_user.ban`):
normal return, `discord.Forbidden`, another `discord.HTTPException`, or any
other exception. -/
inductive CallResult
  | ok
  | forbidden
  | httpError
  | otherError
  deriving DecidableEq

/-- Observable events of one `ban_with_welcome` run, in order: the distinct
denial messages, the DM attempt, the log calls, the ban call, the public
confirmation embed, and the three error replies of the exception handlers. -/
inductive BanEvent
  | denyFeatureDisabled
  | denyAuthorNoPerm
  | denyBotNoPerm
  | denySelfTarget
  | denyBotTarget
  | denyTargetRankVsAuthor
  | denyTargetRankVsBot
  | dmAttempt
  | logWarnDMFail
  | banExecuted
  | publicConfirmation
  | logBan
  | errorBanForbidden
  | errorHTTP
  | logUnexpected
  | errorUnexpected
  deriving DecidableEq

/-- Resolved inputs of one `ban_with_welcome` invocation: the
`BotConfig` of the guild, `ctx.author`, `ctx.guild.me`, `self.bot.user.id`, the target,
and what the two external calls would do when reached. -/
structure BanInput where
  config : BotConfig
  author : Member
  me : Member
  bot_user_id : Nat
  target : Member
  dm_result : CallResult
  ban_result : CallResult
  deriving DecidableEq

/-- The `checks` list of (condition, denial) pairs of `ban_with_welcome`, in
source order. -/
def checks (inp : BanInput) : List (Bool × BanEvent) :=
  [ (!inp.author.ban_members, BanEvent.denyAuthorNoPerm),
    (!inp.me.ban_members, BanEvent.denyBotNoPerm),
    (inp.target.id == inp.author.id, BanEvent.denySelfTarget),
    (inp.target.id == inp.bot_user_id, BanEvent.denyBotTarget),
    (decide (inp.author.top_role ≤ inp.target.top_role), BanEvent.denyTargetRankVsAuthor),
    (decide (inp.me.top_role ≤ inp.target.top_role), BanEvent.denyTargetRankVsBot) ]

/-- The `for condition, message in checks` loop: the first true condition
sends its message and returns `False`. -/
def firstFailing : List (Bool × BanEvent) → Option BanEvent
  | [] => none
  | (c, m) :: rest => if c then some m else firstFailing rest

/-- A log call guarded by `if config.is_enabled("logs")`. -/
def logIf (inp : BanInput) (e : BanEvent) : List BanEvent :=
  if is_enabled inp.config "logs" then [e] else []

/-- The tail of `ban_with_welcome` after the DM phase: `target_user.ban`,
then the public embed, then the guarded log; a failure of the ban call lands
in the surrounding `except` handlers. -/
def ban_tail (inp : BanInput) (dmEvents : List BanEvent) : List BanEvent × Bool :=
  match inp.ban_result with
  | CallResult.ok =>
      (dmEvents ++ BanEvent.banExecuted :: BanEvent.publicConfirmation ::
        logIf inp BanEvent.logBan, true)
  | CallResult.forbidden => (dmEvents ++ [BanEvent.errorBanForbidden], false)
  | CallResult.httpError => (dmEvents ++ [BanEvent.errorHTTP], false)
  | CallResult.otherError =>
      (dmEvents ++ logIf inp BanEvent.logUnexpected ++ [BanEvent.errorUnexpected], false)

/-- Function `ban_with_welcome`: the feature-flag gate, then the `checks` loop, then
the optional DM attempt (only `discord.Forbidden` is caught there, with a
log guarded by the `logs` flag; any other exception falls through to the
outer handlers and aborts), then the ban and the public confirmation. -/
def ban_with_welcome (inp : BanInput) : List BanEvent × Bool :=
  if !(is_enabled inp.config "ban_function") then
    ([BanEvent.denyFeatureDisabled], false)
  else
    match firstFailing (checks inp) with
    | some m => ([m], false)
    | none =>
        if is_enabled inp.config "dm_notifications" then
          match inp.dm_result with
          | CallResult.ok => ban_tail inp [BanEvent.dmAttempt]
          | CallResult.forbidden =>
              ban_tail inp (BanEvent.dmAttempt :: logIf inp BanEvent.logWarnDMFail)
          | CallResult.httpError => ([BanEvent.dmAttempt, BanEvent.errorHTTP], false)
          | CallResult.otherError =>
              (BanEvent.dmAttempt :: logIf inp BanEvent.logUnexpected ++
                [BanEvent.errorUnexpected], false)
        else ban_tail inp []

/-- The hard-coded literal that the `.env` fallback loop in `main` passes to
`line.startswith`: the full token value, not just the variable name. -/
def token_line_pattern : String :=
  "DISCORD_TOKEN=MTQwNjc3ODc0NTMyMjQ3MTQ5NQ.GtG8Fv.jNr0vjrGpwM0CrV1oGvpzvf5N-ZfHvMUydWc7E"

/-- Characters after the first equals sign, i.e. `line.split(sep, 1)[1]` for
a line containing the separator. -/
def afterFirstEq : List Char → List Char
  | [] => []
  | c :: rest => if c = '=' then rest else afterFirstEq rest

/-- Python `str.strip()`: drop whitespace from both ends. -/
def stripChars (l : List Char) : List Char :=
  ((l.dropWhile Char.isWhitespace).reverse.dropWhile Char.isWhitespace).reverse

/-- The fallback loop in `main` over the `.env` lines: a line is used only
when it starts with the full hard-coded literal `token_line_pattern`; the
first such line is split at the first equals sign and stripped. -/
def extract_token_from_env_file : List String → Option String
  | [] => none
  | line :: rest =>
      if token_line_pattern.toList.isPrefixOf line.toList then
        some (String.mk (stripChars (afterFirstEq line.toList)))
      else extract_token_from_env_file rest

/-- Token acquisition in `main`: `os.getenv` first (an empty value is falsy
and counts as absent); when absent, scan the `.env` file (an absent file
yields nothing); a still-falsy token makes `main` print the diagnostics and
return without starting the bot (`none`). -/
def acquire_token (env : Option String) (env_file : Option (List String)) : Option String :=
  let token :=
    match env with
    | some s => if s.isEmpty then none else some s
    | none => none
  match token with
  | some s => some s
  | none =>
      match env_file with
      | none => none
      | some lines =>
          match extract_token_from_env_file lines with
          | some s => if s.isEmpty then none else some s
          | none => none

/-- A guild config resident with the canonical defaults, file in sync. -/
def cfg_defaults : BotConfig :=
  { guild_id := 1, config := default_config, file := FileState.stored default_config }

/-- The 7-key mapping obtained by backfilling `[("ban_function", false)]`. -/
def seven_key_merge : List (String × Bool) :=
  [("ban_function", false), ("welcome_messages", true), ("auto_moderation", false),
   ("logs", true), ("dm_notifications", true), ("anti_spam", false), ("auto_role", false)]

/-- The canonical defaults with the `logs` flag toggled off. -/
def config_logs_off : List (String × Bool) :=
  [("ban_function", true), ("welcome_messages", true), ("auto_moderation", false),
   ("logs", false), ("dm_notifications", true), ("anti_spam", false), ("auto_role", false)]

/-- A config object freshly hydrated from an absent file. -/
def fresh_loaded : BotConfig :=
  (load_config { guild_id := 3, config := [], file := FileState.absent }).1

/-- An open panel session owned by user 1 over the default flags. -/
def panel_example : ControlPanelView :=
  { bot_config := cfg_defaults, user_id := 1, stopped := false, cleared := false }

/-- A store whose file holds a single unknown key. -/
def stored_custom : BotConfig :=
  { guild_id := 2, config := [], file := FileState.stored [("custom_key", true)] }

/-- A ban invocation whose target has exactly the top-role rank of the actor and
which passes every earlier check. -/
def inp_equal_rank : BanInput :=
  { config := cfg_defaults,
    author := { id := 10, top_role := 5, ban_members := true },
    me := { id := 99, top_role := 9, ban_members := true },
    bot_user_id := 99,
    target := { id := 20, top_role := 5, ban_members := false },
    dm_result := CallResult.ok,
    ban_result := CallResult.ok }

/-- A ban invocation that passes every check, with the `logs` flag off and a
target whose DM delivery raises `discord.Forbidden`. -/
def inp_logs_off : BanInput :=
  { config := { guild_id := 4, config := config_logs_off, file := FileState.stored config_logs_off },
    author := { id := 10, top_role := 5, ban_members := true },
    me := { id := 99, top_role := 9, ban_members := true },
    bot_user_id := 99,
    target := { id := 20, top_role := 1, ban_members := false },
    dm_result := CallResult.forbidden,
    ban_result := CallResult.ok }

/-- A ban invocation that passes every check under the default flags, with a
target whose DM delivery raises `discord.Forbidden`. -/
def inp_dm_forbidden : BanInput :=
  { config := cfg_defaults,
    author := { id := 11, top_role := 5, ban_members := true },
    me := { id := 98, top_role := 9, ban_members := true },
    bot_user_id := 98,
    target := { id := 21, top_role := 1, ban_members := false },
    dm_result := CallResult.forbidden,
    ban_result := CallResult.ok }

/-- A ban invocation that passes every check under the default flags, with a
target whose DM delivery raises a non-Forbidden HTTP error. -/
def inp_dm_http : BanInput :=
  { config := cfg_defaults,
    author := { id := 12, top_role := 5, ban_members := true },
    me := { id := 97, top_role := 9, ban_members := true },
    bot_user_id := 97,
    target := { id := 22, top_role := 1, ban_members := false },
    dm_result := CallResult.httpError,
    ban_result := CallResult.ok }

/-! Supporting lemmas about assoc-list lookup, `setValue` and the default
backfill. -/

theorem lookup_append_of_some (c l : List (String × Bool)) (k : String) (v : Bool)
    (h : c.lookup k = some v) : (c ++ l).lookup k = some v := by
  induction c with
  | nil => simp [List.lookup] at h
  | cons a c ih =>
      obtain ⟨a1, a2⟩ := a
      by_cases hk : (k == a1) = true
      · simp [List.lookup, hk] at h ⊢
        exact h
      · simp only [List.cons_append, List.lookup, hk] at h ⊢
        exact ih h

theorem lookup_append_of_none (c l : List (String × Bool)) (k : String)
    (h : c.lookup k = none) : (c ++ l).lookup k = l.lookup k := by
  induction c with
  | nil => simp
  | cons a c ih =>
      obtain ⟨a1, a2⟩ := a
      by_cases hk : (k == a1) = true
      · simp [List.lookup, hk] at h
      · simp only [List.cons_append, List.lookup, hk] at h ⊢
        exact ih h

theorem foldl_mergeStep_lookup_some (ds : List (String × Bool)) :
    ∀ (c : List (String × Bool)) (k : String) (v : Bool), c.lookup k = some v →
      ((ds.foldl mergeStep c).lookup k) = some v := by
  induction ds with
  | nil => intro c k v h; simpa using h
  | cons d ds ih =>
      intro c k v h
      simp only [List.foldl]
      apply ih
      cases hd : (c.lookup d.1).isSome with
      | true => simpa [mergeStep, hd] using h
      | false =>
          simp only [mergeStep, hd, if_neg Bool.false_ne_true]
          exact lookup_append_of_some c [d] k v h

theorem foldl_mergeStep_lookup_isSome (ds : List (String × Bool)) :
    ∀ (c : List (String × Bool)) (k : String),
      (ds.lookup k).isSome = true ∨ (c.lookup k).isSome = true →
      ((ds.foldl mergeStep c).lookup k).isSome = true := by
  induction ds with
  | nil =>
      intro c k h
      cases h with
      | inl h => simp [List.lookup] at h
      | inr h => simpa using h
  | cons d ds ih =>
      intro c k h
      obtain ⟨d1, d2⟩ := d
      simp only [List.foldl]
      apply ih
      cases h with
      | inr hc =>
          right
          obtain ⟨v, hv⟩ := Option.isSome_iff_exists.mp hc
          cases hd : (c.lookup d1).isSome with
          | true => simp [mergeStep, hd, hv]
          | false =>
              simp only [mergeStep, hd, if_neg Bool.false_ne_true]
              rw [lookup_append_of_some c [(d1, d2)] k v hv]
              rfl
      | inl hds =>
          by_cases hk : (k == d1) = true
          · right
            have hkd : k = d1 := eq_of_beq hk
            subst hkd
            cases hd : (c.lookup k).isSome with
            | true => simp [mergeStep, hd]
            | false =>
                have hnone : c.lookup k = none := by
                  cases hc : c.lookup k with
                  | none => rfl
                  | some v => rw [hc] at hd; simp at hd
                simp only [mergeStep, hd, if_neg Bool.false_ne_true]
                rw [lookup_append_of_none c [(k, d2)] k hnone]
                simp [List.lookup]
          · left
            simpa [List.lookup, hk] using hds

theorem mergeDefaults_preserves (stored : List (String × Bool)) (k : String) (v : Bool)
    (h : stored.lookup k = some v) : (mergeDefaults stored).lookup k = some v :=
  foldl_mergeStep_lookup_some default_config stored k v h

theorem mergeDefaults_default_present (stored : List (String × Bool)) (k : String)
    (h : (default_config.lookup k).isSome = true) :
    ((mergeDefaults stored).lookup k).isSome = true :=
  foldl_mergeStep_lookup_isSome default_config stored k (Or.inl h)

theorem setValue_lookup_isSome (c : List (String × Bool)) (n : String) (b : Bool)
    (k : String) : ((setValue c n b).lookup k).isSome = (c.lookup k).isSome := by
  induction c with
  | nil => simp [setValue]
  | cons a c ih =>
      obtain ⟨a1, a2⟩ := a
      by_cases hn : (n == a1) = true
      · by_cases hk : (k == a1) = true <;> simp [setValue, hn, List.lookup, hk]
      · by_cases hk : (k == a1) = true <;> simp [setValue, hn, List.lookup, hk, ih]

theorem setValue_self (c : List (String × Bool)) (n : String) (b : Bool)
    (h : c.lookup n = some b) : setValue c n b = c := by
  induction c with
  | nil => simp [List.lookup] at h
  | cons a c ih =>
      obtain ⟨a1, a2⟩ := a
      by_cases hn : (n == a1) = true
      · simp [List.lookup, hn] at h
        simp [setValue, hn, h]
      · simp only [List.lookup, hn] at h
        simp [setValue, hn, ih h]

theorem setValue_setValue (c : List (String × Bool)) (n : String) (b1 b2 : Bool) :
    setValue (setValue c n b1) n b2 = setValue c n b2 := by
  induction c with
  | nil => simp [setValue]
  | cons a c ih =>
      obtain ⟨a1, a2⟩ := a
      by_cases hn : (n == a1) = true <;> simp [setValue, hn, ih]

theorem lookup_setValue (c : List (String × Bool)) (n : String) (b : Bool)
    (h : (c.lookup n).isSome = true) : (setValue c n b).lookup n = some b := by
  induction c with
  | nil => simp [List.lookup] at h
  | cons a c ih =>
      obtain ⟨a1, a2⟩ := a
      by_cases hn : (n == a1) = true
      · simp [setValue, hn, List.lookup]
      · simp only [setValue, hn, if_neg, List.lookup] at h ⊢
        exact ih h

theorem reachable_default_present {s : BotConfig} (h : ReachableState s) (k : String)
    (hk : (default_config.lookup k).isSome = true) :
    (s.config.lookup k).isSome = true := by
  induction h with
  | load s =>
      cases hf : s.file with
      | stored data =>
          simp only [load_config, hf, save_config]
          exact mergeDefaults_default_present data k hk
      | absent => simp only [load_config, hf, save_config]; exact hk
      | corrupt => simp only [load_config, hf]; exact hk
  | toggle s n hs ih =>
      cases hl : s.config.lookup n with
      | some b =>
          simp only [toggle_function, hl, save_config]
          rw [setValue_lookup_isSome]
          exact ih
      | none => simp only [toggle_function, hl]; exact ih

/-! Claim theorems. -/

/-- Claim C1, counterexample: a load over an unreadable file returns with the
file still unreadable — the defaults are not persisted, so the file on disk
does not contain them, refuting the self-healing part of the claim. -/
theorem C1_counterexample :
    (load_config { guild_id := 1, config := [], file := FileState.corrupt }).1.file =
        FileState.corrupt ∧
      FileState.corrupt ≠ FileState.stored default_config := by
  exact ⟨rfl, by decide⟩

/-- Claim C1, amended: for every guild id and prior in-memory mapping, a load
over an unreadable file logs the failure and falls back to the all-defaults
mapping in memory, but performs no save: the file keeps its unreadable
content. -/
theorem C1_amended_fallback (g : Nat) (c : List (String × Bool)) :
    load_config { guild_id := g, config := c, file := FileState.corrupt } =
      ({ guild_id := g, config := default_config, file := FileState.corrupt }, true) := rfl

/-- Claim C3: after any load, every canonical default key is present in the
mapping; every key read from a stored file keeps its stored value; on a
readable file the backfilled mapping is also what gets persisted; and the
stored file containing only the pair (ban_function, false) loads and
persists the 7-key merge with the other six keys at their defaults. -/
theorem C3_load_invariant (s : BotConfig) :
    (∀ k : String, (default_config.lookup k).isSome = true →
      ((load_config s).1.config.lookup k).isSome = true) ∧
    (∀ (data : List (String × Bool)) (k : String) (v : Bool),
      s.file = FileState.stored data → data.lookup k = some v →
      (load_config s).1.config.lookup k = some v) ∧
    (∀ data : List (String × Bool), s.file = FileState.stored data →
      (load_config s).1.file = FileState.stored ((load_config s).1.config)) ∧
    load_config { guild_id := 1, config := [], file := FileState.stored [("ban_function", false)] } =
      ({ guild_id := 1, config := seven_key_merge, file := FileState.stored seven_key_merge },
        false) := by
  refine ⟨?_, ?_, ?_, by decide⟩
  · intro k hk
    cases hf : s.file with
    | stored data =>
        simp only [load_config, hf, save_config]
        exact mergeDefaults_default_present data k hk
    | absent => simp only [load_config, hf, save_config]; exact hk
    | corrupt => simp only [load_config, hf]; exact hk
  · intro data k v hf hv
    simp only [load_config, hf, save_config]
    exact mergeDefaults_preserves data k v hv
  · intro data hf
    simp only [load_config, hf, save_config]

/-- Claim C3, witness. -/
theorem C3_witness :
    ((load_config stored_custom).1.config.lookup "ban_function").isSome = true ∧
    (load_config stored_custom).1.config.lookup "custom_key" = some true :=
  ⟨(C3_load_invariant stored_custom).1 "ban_function" (by decide),
   (C3_load_invariant stored_custom).2.1 [("custom_key", true)] "custom_key" true rfl
     (by decide)⟩

/-- Claim C4: toggling a canonical feature name twice in succession on any
reachable flag state restores the flag mapping. -/
theorem C4_toggle_self_inverse (s : BotConfig) (name : String)
    (hname : (default_config.lookup name).isSome = true)
    (hreach : ReachableState s) :
    (toggle_function (toggle_function s name).1 name).1.config = s.config := by
  have hpresent : (s.config.lookup name).isSome = true :=
    reachable_default_present hreach name hname
  obtain ⟨b, hb⟩ := Option.isSome_iff_exists.mp hpresent
  have h2 : (setValue s.config name (!b)).lookup name = some (!b) :=
    lookup_setValue s.config name (!b) hpresent
  simp only [toggle_function, hb, save_config, h2]
  rw [setValue_setValue, Bool.not_not, setValue_self s.config name b hb]

/-- Claim C4, witness: toggling ban_function twice on a freshly hydrated
config restores the mapping. -/
theorem C4_witness :
    (toggle_function (toggle_function fresh_loaded "ban_function").1 "ban_function").1.config =
      fresh_loaded.config :=
  C4_toggle_self_inverse fresh_loaded "ban_function" (by decide)
    (ReachableState.load { guild_id := 3, config := [], file := FileState.absent })

/-- Claim C5: toggling a name that is not a key of the mapping returns the
None sentinel and leaves the whole store — in-memory mapping and file —
exactly as it was; no save happens on that path. -/
theorem C5_toggle_unknown (s : BotConfig) (name : String)
    (h : s.config.lookup name = none) :
    toggle_function s name = (s, none) := by
  simp [toggle_function, h]

/-- Claim C5, witness. -/
theorem C5_witness : toggle_function cfg_defaults "unknown_key" = (cfg_defaults, none) :=
  C5_toggle_unknown cfg_defaults "unknown_key" (by decide)

/-- Claim C6: every panel interaction — feature toggle, detailed status,
refresh, close — by an actor other than the session owner yields the
explicit denial response and leaves the session, its bound config, and the
file untouched. -/
theorem C6_owner_only (v : ControlPanelView) (actor : Nat) (name : String)
    (h : actor ≠ v.user_id) :
    create_toggle_callback name v actor = (v, PanelResponse.denyNotOwner) ∧
    show_detailed_status v actor = (v, PanelResponse.denyNotOwner) ∧
    refresh_panel v actor = (v, PanelResponse.denyNotOwner) ∧
    close_panel v actor = (v, PanelResponse.denyNotOwner) := by
  have hb : (actor != v.user_id) = true := by simpa [bne_iff_ne] using h
  simp [create_toggle_callback, show_detailed_status, refresh_panel, close_panel, hb]

/-- Claim C6, witness: user 2 interacting with the panel of user 1. -/
theorem C6_witness :
    create_toggle_callback "logs" panel_example 2 = (panel_example, PanelResponse.denyNotOwner) ∧
    show_detailed_status panel_example 2 = (panel_example, PanelResponse.denyNotOwner) ∧
    refresh_panel panel_example 2 = (panel_example, PanelResponse.denyNotOwner) ∧
    close_panel panel_example 2 = (panel_example, PanelResponse.denyNotOwner) :=
  C6_owner_only panel_example 2 "logs" (by decide)

/-- Claim C2: the ban gate runs its seven checks in exactly the listed order,
short-circuiting at the first failing check with the distinct denial of that check
as the only emitted event (so no removal and no later check runs); with the
feature flag off it aborts before any permission check, and a target whose
rank equals the rank of the actor is denied with the relative-authority denial since
the comparison is non-strict. -/
theorem C2_ban_gate_order (inp : BanInput) :
    (is_enabled inp.config "ban_function" = false →
      ban_with_welcome inp = ([BanEvent.denyFeatureDisabled], false)) ∧
    (is_enabled inp.config "ban_function" = true →
      inp.author.ban_members = false →
      ban_with_welcome inp = ([BanEvent.denyAuthorNoPerm], false)) ∧
    (is_enabled inp.config "ban_function" = true →
      inp.author.ban_members = true → inp.me.ban_members = false →
      ban_with_welcome inp = ([BanEvent.denyBotNoPerm], false)) ∧
    (is_enabled inp.config "ban_function" = true →
      inp.author.ban_members = true → inp.me.ban_members = true →
      inp.target.id = inp.author.id →
      ban_with_welcome inp = ([BanEvent.denySelfTarget], false)) ∧
    (is_enabled inp.config "ban_function" = true →
      inp.author.ban_members = true → inp.me.ban_members = true →
      inp.target.id ≠ inp.author.id → inp.target.id = inp.bot_user_id →
      ban_with_welcome inp = ([BanEvent.denyBotTarget], false)) ∧
    (is_enabled inp.config "ban_function" = true →
      inp.author.ban_members = true → inp.me.ban_members = true →
      inp.target.id ≠ inp.author.id → inp.target.id ≠ inp.bot_user_id →
      inp.author.top_role ≤ inp.target.top_role →
      ban_with_welcome inp = ([BanEvent.denyTargetRankVsAuthor], false)) ∧
    (is_enabled inp.config "ban_function" = true →
      inp.author.ban_members = true → inp.me.ban_members = true →
      inp.target.id ≠ inp.author.id → inp.target.id ≠ inp.bot_user_id →
      inp.target.top_role < inp.author.top_role →
      inp.me.top_role ≤ inp.target.top_role →
      ban_with_welcome inp = ([BanEvent.denyTargetRankVsBot], false)) := by
  refine ⟨?_, ?_, ?_, ?_, ?_, ?_, ?_⟩
  · intro h1
    simp [ban_with_welcome, h1]
  · intro h1 h2
    simp [ban_with_welcome, checks, firstFailing, h1, h2]
  · intro h1 h2 h3
    simp [ban_with_welcome, checks, firstFailing, h1, h2, h3]
  · intro h1 h2 h3 h4
    simp [ban_with_welcome, checks, firstFailing, h1, h2, h3, h4]
  · intro h1 h2 h3 h4 h5
    rw [h5] at h4
    simp [ban_with_welcome, checks, firstFailing, h1, h2, h3, h4, h5]
  · intro h1 h2 h3 h4 h5 h6
    simp [ban_with_welcome, checks, firstFailing, h1, h2, h3, h4, h5, h6]
  · intro h1 h2 h3 h4 h5 h6 h7
    have h6n : ¬ inp.author.top_role ≤ inp.target.top_role := Nat.not_le.mpr h6
    simp [ban_with_welcome, checks, firstFailing, h1, h2, h3, h4, h5, h6n, h7]

/-- Claim C2, witness: a target whose top rank equals the rank of the actor, with the
feature flag on and every earlier check passing, is denied with the
relative-authority denial and nothing else happens. -/
theorem C2_witness :
    ban_with_welcome inp_equal_rank = ([BanEvent.denyTargetRankVsAuthor], false) :=
  (C2_ban_gate_order inp_equal_rank).2.2.2.2.2.1 (by decide) (by decide) (by decide)
    (by decide) (by decide) (by decide)

/-- Claim C7, counterexample: in a run where every check passes, DM
notifications are on, the logs flag is off and the DM delivery to the target
raises Forbidden, the ban still happens but no log call is made — the
delivery failure is not logged, refuting the unconditional "is logged". -/
theorem C7_counterexample :
    ban_with_welcome inp_logs_off =
      ([BanEvent.dmAttempt, BanEvent.banExecuted, BanEvent.publicConfirmation], true) ∧
    BanEvent.logWarnDMFail ∉ (ban_with_welcome inp_logs_off).1 := by
  exact ⟨by decide, by decide⟩

/-- Claim C7, amended: when all seven checks pass, DM notifications are on,
the DM delivery raises Forbidden and the ban call succeeds, the DM attempt
happens strictly after the checks and strictly before the removal, the
failure is logged exactly when the logs flag is enabled, and the removal and
the public confirmation still occur with a true result. -/
theorem C7_dm_best_effort (inp : BanInput)
    (hban : is_enabled inp.config "ban_function" = true)
    (hchecks : firstFailing (checks inp) = none)
    (hdm : is_enabled inp.config "dm_notifications" = true)
    (hfail : inp.dm_result = CallResult.forbidden)
    (hok : inp.ban_result = CallResult.ok) :
    ban_with_welcome inp =
      (BanEvent.dmAttempt ::
        ((if is_enabled inp.config "logs" then [BanEvent.logWarnDMFail] else []) ++
          BanEvent.banExecuted :: BanEvent.publicConfirmation ::
          (if is_enabled inp.config "logs" then [BanEvent.logBan] else [])), true) := by
  simp [ban_with_welcome, hban, hchecks, hdm, hfail, ban_tail, hok, logIf]

/-- Claim C7, witness: under the default flags (logs on), the Forbidden DM
failure is logged and the ban and confirmation still occur. -/
theorem C7_witness :
    ban_with_welcome inp_dm_forbidden =
      (BanEvent.dmAttempt ::
        ((if is_enabled inp_dm_forbidden.config "logs" then [BanEvent.logWarnDMFail] else []) ++
          BanEvent.banExecuted :: BanEvent.publicConfirmation ::
          (if is_enabled inp_dm_forbidden.config "logs" then [BanEvent.logBan] else [])),
        true) :=
  C7_dm_best_effort inp_dm_forbidden (by decide) (by decide) (by decide) rfl rfl

/-- Claim C8: the fallback loop of `main` recognizes a `.env` line only when
it starts with one full hard-coded token literal, so a `.env` file holding
any other token yields nothing and startup aborts; the env variable path and
the both-absent fatal path behave as claimed; and a line carrying exactly
the hard-coded token is the one case the fallback extracts. -/
theorem C8_token_fallback_eval :
    acquire_token none (some ["DISCORD_TOKEN=abc123"]) = none ∧
    acquire_token (some "tok") (some ["DISCORD_TOKEN=abc123"]) = some "tok" ∧
    acquire_token none none = none ∧
    acquire_token none (some [token_line_pattern]) =
      some "MTQwNjc3ODc0NTMyMjQ3MTQ5NQ.GtG8Fv.jNr0vjrGpwM0CrV1oGvpzvf5N-ZfHvMUydWc7E" := by
  exact ⟨by decide, rfl, rfl, by decide⟩

/-- Claim C9: the session timeout is 5 minutes, and the `on_timeout` handler
clears the interactive controls but emits no message edit or send at all —
the expiry notice it builds is never rendered, because the panel message
object is never stored. -/
theorem C9_timeout_eval :
    timeout_seconds = 5 * 60 ∧
    on_timeout panel_example = ({ panel_example with cleared := true }, []) ∧
    (on_timeout panel_example).2 = [] := by
  exact ⟨rfl, rfl, rfl⟩

/-- Claim C10: when every check passes and DM notifications are on, a DM
attempt that raises a non-Forbidden HTTP error or any other non-Forbidden
exception aborts the whole ban with a failure result and no removal, while
the Forbidden failure alone is absorbed and the ban still happens. -/
theorem C10_dm_error_aborts (inp : BanInput)
    (hban : is_enabled inp.config "ban_function" = true)
    (hchecks : firstFailing (checks inp) = none)
    (hdm : is_enabled inp.config "dm_notifications" = true) :
    (inp.dm_result = CallResult.httpError →
      ban_with_welcome inp = ([BanEvent.dmAttempt, BanEvent.errorHTTP], false) ∧
      BanEvent.banExecuted ∉ (ban_with_welcome inp).1) ∧
    (inp.dm_result = CallResult.otherError →
      ban_with_welcome inp =
        (BanEvent.dmAttempt ::
          ((if is_enabled inp.config "logs" then [BanEvent.logUnexpected] else []) ++
            [BanEvent.errorUnexpected]), false) ∧
      BanEvent.banExecuted ∉ (ban_with_welcome inp).1) ∧
    (inp.dm_result = CallResult.forbidden → inp.ban_result = CallResult.ok →
      (ban_with_welcome inp).2 = true ∧
      BanEvent.banExecuted ∈ (ban_with_welcome inp).1) := by
  refine ⟨?_, ?_, ?_⟩
  · intro hdm2
    constructor
    · simp [ban_with_welcome, hban, hchecks, hdm, hdm2]
    · simp [ban_with_welcome, hban, hchecks, hdm, hdm2]
  · intro hdm2
    constructor
    · simp [ban_with_welcome, hban, hchecks, hdm, hdm2, logIf]
    · by_cases hl : is_enabled inp.config "logs" <;>
        simp [ban_with_welcome, hban, hchecks, hdm, hdm2, logIf, hl]
  · intro hdm2 hok
    constructor
    · simp [ban_with_welcome, hban, hchecks, hdm, hdm2, ban_tail, hok]
    · simp [ban_with_welcome, hban, hchecks, hdm, hdm2, ban_tail, hok, logIf]

/-- Claim C10, witness: a non-Forbidden HTTP error in the DM attempt aborts
the ban before any removal. -/
theorem C10_witness :
    ban_with_welcome inp_dm_http = ([BanEvent.dmAttempt, BanEvent.errorHTTP], false) ∧
    BanEvent.banExecuted ∉ (ban_with_welcome inp_dm_http).1 :=
  (C10_dm_error_aborts inp_dm_http (by decide) (by decide) (by decide)).1 rfl
